import Mathlib

/-! Shallow embedding of the error-management core of the repository: the
logging-wrapper utilities of `src/utils/errorLogger.js`, and the
classifier / aggregator / recovery-dispatcher / handler engine exercised by
`tests/unit/errorHandling.test.js`. Pure functions become Lean functions,
stateful components become explicit state passing, thrown exceptions become
`Except`, and the impure timestamp is passed in as an explicit argument. -/

/-- Substring containment: `pat` occurs contiguously inside `s`.  This models
JavaScript `String.prototype.includes` / Jest `stringContaining`. -/
def strContains (s pat : String) : Prop := pat.toList <:+: s.toList

instance (s pat : String) : Decidable (strContains s pat) :=
  List.decidableInfix pat.toList s.toList

theorem strContains_append_right (s t : String) : strContains (s ++ t) t := by
  unfold strContains String.toList
  rw [String.data_append]
  exact (List.suffix_append s.data t.data).isInfix

theorem strContains_append_of_left {s : String} (t : String) {pat : String}
    (h : strContains s pat) : strContains (s ++ t) pat := by
  unfold strContains String.toList at h ⊢
  rw [String.data_append]
  exact h.trans (List.prefix_append s.data t.data).isInfix

theorem strContains_append_of_right (s : String) {t pat : String}
    (h : strContains t pat) : strContains (s ++ t) pat := by
  unfold strContains String.toList at h ⊢
  rw [String.data_append]
  exact h.trans (List.suffix_append s.data t.data).isInfix

/-- ASCII-faithful model of JavaScript `String.prototype.toLowerCase`, written
character-by-character so that it evaluates in the kernel. -/
def toLowerCase (s : String) : String := ⟨s.toList.map Char.toLower⟩

/-- A JavaScript value thrown or logged as an error: either an `Error`
instance (message, constructor name, optional stack) or a plain string, as
distinguished by the `error instanceof Error` tests in `errorLogger.js`. -/
inductive ErrVal where
  | err (message : String) (ctorName : String) (stack : Option String)
  | str (s : String)
deriving DecidableEq, Repr

/-- `error instanceof Error ? error.message : error` in `logError`. -/
def ErrVal.errorMessage : ErrVal → String
  | .err m _ _ => m
  | .str s => s

/-- `error instanceof Error ? error.stack : undefined` in `logError`. -/
def ErrVal.errorStack : ErrVal → Option String
  | .err _ _ st => st
  | .str _ => none

/-- `error instanceof Error ? error.constructor.name : 'Error'` in `logError`. -/
def ErrVal.errorType : ErrVal → String
  | .err _ c _ => c
  | .str _ => "Error"

/-- `Object.keys(logLevels)` of the winston level map in `errorLogger.js`. -/
def logLevelNames : List String := ["error", "warn", "info", "debug"]

/-- One record handed to `logger.log(severity, errorMessage, {...logData})` in
`errorLogger.js`: the log level, the message, and the fields of `logData`.
The caller-supplied metadata object is the type parameter `μ`. -/
structure WRecord (μ : Type) where
  level : String
  message : String
  severity : String
  etype : String
  stack : Option String
  timestamp : String
  meta : μ
deriving DecidableEq, Repr

/-- Embedding of `logError` from `src/utils/errorLogger.js`: validates the
severity string against the known level names (after lowercasing) and throws
`Invalid severity level: <severity>` on failure, otherwise produces the single
structured record passed to the winston logger.  The impure
`new Date().toISOString()` is the explicit `now` argument. -/
def logError {μ : Type} (error : ErrVal) (severity : String) (now : String)
    (meta : μ) : Except String (WRecord μ) :=
  if !(logLevelNames.contains (toLowerCase severity)) then
    Except.error ("Invalid severity level: " ++ severity)
  else
    Except.ok
      { level := severity
        message := error.errorMessage
        severity := severity
        etype := error.errorType
        stack := error.errorStack
        timestamp := now
        meta := meta }

/-- Embedding of `withErrorLogging` from `src/utils/errorLogger.js`: runs the
wrapped function; on success returns its value with no log write, on an
exception logs it at level `error` with `{ context, args }` metadata and
re-throws the original error.  The first component collects the sink writes
performed by the call. -/
def withErrorLogging {α β : Type} (fn : α → Except ErrVal β) (context : String)
    (now : String) (args : α) : List (WRecord (String × α)) × Except ErrVal β :=
  match fn args with
  | Except.ok v => ([], Except.ok v)
  | Except.error e =>
    match logError e "error" now (context, args) with
    | Except.ok r => ([r], Except.error e)
    | Except.error m => ([], Except.error (ErrVal.err m "Error" none))

/-- Modelled from the spec: the closed `ErrorSeverity` enumeration of
`src/utils/errorTypes.js`, whose implementation is absent from the sources
(only the test suite imports it).  Spec order: CRITICAL > HIGH > ERROR >
WARNING > LOW > UNKNOWN. -/
inductive ErrorSeverity where
  | CRITICAL
  | HIGH
  | ERROR
  | WARNING
  | LOW
  | UNKNOWN
deriving DecidableEq, Repr

/-- Modelled from the spec: the explicit total order on severities that
drives escalation thresholds. -/
def ErrorSeverity.rank : ErrorSeverity → Nat
  | .CRITICAL => 5
  | .HIGH => 4
  | .ERROR => 3
  | .WARNING => 2
  | .LOW => 1
  | .UNKNOWN => 0

/-- Modelled from the spec: the closed `ErrorCategory` enumeration of
`src/utils/errorTypes.js`, whose implementation is absent from the sources. -/
inductive ErrorCategory where
  | SYSTEM
  | BUSINESS
  | UI
  | NETWORK
  | UNKNOWN
deriving DecidableEq, Repr

/-- Modelled from the spec: the UI-related vocabulary (rendering / button /
display keywords) used by the category heuristic; the exact keyword list is
underspecified, these cover the wording the tests exercise. -/
def uiKeywords : List String := ["render", "button", "display", "ui"]

/-- Modelled from the spec: whether a text contains UI-related wording,
matched case-insensitively. -/
def hasUiKeyword (text : String) : Bool :=
  uiKeywords.any (fun k => decide (strContains (toLowerCase text) k))

/-- Modelled from the spec: a raw error-like input to the Handler — an object
carrying a `message`, an optional declared `severity` field, an optional
explicit category hint, an optional `recoverable` flag; `isException` records
whether it is a well-formed exception object or a plain message-bearing
object (both must be accepted). -/
structure RawError where
  message : String
  severity : Option String
  category : Option ErrorCategory
  recoverable : Option Bool
  isException : Bool
deriving DecidableEq, Repr

/-- Modelled from the spec: case-insensitive resolution of a declared
severity string onto the enumeration; unrecognized values resolve to
`UNKNOWN`. -/
def parseSeverity (s : String) : ErrorSeverity :=
  if toLowerCase s = "critical" then .CRITICAL
  else if toLowerCase s = "high" then .HIGH
  else if toLowerCase s = "error" then .ERROR
  else if toLowerCase s = "warning" then .WARNING
  else if toLowerCase s = "low" then .LOW
  else .UNKNOWN

/-- Modelled from the spec: the canonical classified value produced per
input: message, severity, category, timestamp and a context mapping. -/
structure ClassifiedError where
  message : String
  severity : ErrorSeverity
  category : ErrorCategory
  timestamp : String
  context : List (String × String)
deriving DecidableEq, Repr

/-- Modelled from the spec: severity resolution — a declared severity field is
parsed case-insensitively, an absent field resolves to `UNKNOWN`. -/
def resolveSeverity (raw : RawError) : ErrorSeverity :=
  match raw.severity with
  | some s => parseSeverity s
  | none => .UNKNOWN

/-- Modelled from the spec: the first-match category rule chain — an explicit
hint wins; else `CRITICAL` severity defaults to `SYSTEM`; else `WARNING`
defaults to `BUSINESS`; else UI vocabulary in the message gives `UI`; else
`UNKNOWN`. -/
def resolveCategory (raw : RawError) (sev : ErrorSeverity) : ErrorCategory :=
  match raw.category with
  | some c => c
  | none =>
    if sev = .CRITICAL then .SYSTEM
    else if sev = .WARNING then .BUSINESS
    else if hasUiKeyword raw.message then .UI
    else .UNKNOWN

/-- Modelled from the spec: `classifyError` of the absent
`src/services/errorHandler.js` — the pure classifier, `raw error ->
ClassifiedError`, with the impure timestamp passed in as `now`. -/
def classifyError (raw : RawError) (now : String) : ClassifiedError :=
  let sev := resolveSeverity raw
  { message := raw.message
    severity := sev
    category := resolveCategory raw sev
    timestamp := now
    context := [] }

/-- Modelled from the spec: one aggregate entry — signature (the exact
message), a sample message, an occurrence count, first-seen and last-seen
timestamps. -/
structure AggregateEntry where
  signature : String
  sampleMessage : String
  count : Nat
  firstSeen : String
  lastSeen : String
deriving DecidableEq, Repr

/-- Modelled from the spec: lookup-or-create on the entry list, preserving
first-seen (insertion) order — a matching signature has its count incremented
and `lastSeen` updated in place, an unseen signature is appended with count
one. -/
def recordIn : List AggregateEntry → String → String → List AggregateEntry
  | [], sig, now => [{ signature := sig, sampleMessage := sig, count := 1,
                       firstSeen := now, lastSeen := now }]
  | e :: rest, sig, now =>
    if e.signature = sig then
      { e with count := e.count + 1, lastSeen := now } :: rest
    else
      e :: recordIn rest sig now

/-- Modelled from the spec: the stateful Aggregator of the absent
`src/services/errorHandler.js`, keyed by error signature, holding its entries
in first-seen order. -/
structure Aggregator where
  entries : List AggregateEntry
deriving DecidableEq, Repr

/-- Modelled from the spec: a newly constructed Aggregator holds no
entries. -/
def Aggregator.empty : Aggregator := { entries := [] }

/-- Modelled from the spec: `record` — computes the signature from the
normalized message (exact string match) and performs the lookup-or-create
update. -/
def Aggregator.record (a : Aggregator) (ce : ClassifiedError) : Aggregator :=
  { entries := recordIn a.entries ce.message ce.timestamp }

/-- Modelled from the spec: `snapshot` — all entries in first-seen order. -/
def Aggregator.snapshot (a : Aggregator) : List AggregateEntry := a.entries

/-- Modelled from the spec: `reset` — clears all entries. -/
def Aggregator.reset (_ : Aggregator) : Aggregator := { entries := [] }

/-- Modelled from the spec: one structured write accepted by the logging sink
collaborator — a level from the sink vocabulary, a message, and the metadata
fields the various orchestrators attach (absent fields are `none`). -/
structure SinkWrite where
  level : String
  message : String
  severity : Option ErrorSeverity
  category : Option ErrorCategory
  timestamp : Option String
  context : Option (List (String × String))
  bugTitle : Option String
deriving DecidableEq, Repr

/-- Modelled from the spec: the classified severity mapped onto the sink
level vocabulary — `ERROR`/`CRITICAL`/`HIGH` go to `error`, `WARNING` to
`warn`; the spec leaves the rest implicit, and the test suite forces
severity-less (hence `UNKNOWN`) inputs onto `error`, while `LOW` goes to the
informational level. -/
def severityToLevel : ErrorSeverity → String
  | .CRITICAL => "error"
  | .HIGH => "error"
  | .ERROR => "error"
  | .WARNING => "warn"
  | .LOW => "info"
  | .UNKNOWN => "error"

/-- Modelled from the spec: merge of the caller-supplied context into the
classified context mapping, caller keys winning on conflict. -/
def mergeContext (base extra : List (String × String)) :
    List (String × String) :=
  base.filter (fun p => extra.all (fun q => q.1 != p.1)) ++ extra

/-- Modelled from the spec: the escalation threshold — severities at or above
`CRITICAL` trigger the notification record. -/
def escalationThreshold : ErrorSeverity := .CRITICAL

/-- Modelled from the spec: the mutable state of the absent
`src/services/errorHandler.js` — the Aggregator it owns. -/
structure HandlerState where
  agg : Aggregator
deriving DecidableEq, Repr

/-- Modelled from the spec: the state of a newly constructed ErrorHandler. -/
def HandlerState.init : HandlerState := { agg := Aggregator.empty }

/-- Modelled from the spec: `handleError` of the absent
`src/services/errorHandler.js` — classify (merging the caller context), emit
one structured record at the mapped level, record the occurrence in the
Aggregator, and emit the second critical-notification record exactly when the
classified severity reaches the escalation threshold.  Returns the updated
state and the sink writes in emission order. -/
def handleError (st : HandlerState) (raw : RawError)
    (context : List (String × String)) (now : String) :
    HandlerState × List SinkWrite :=
  let ce0 := classifyError raw now
  let ce := { ce0 with context := mergeContext ce0.context context }
  let primary : SinkWrite :=
    { level := severityToLevel ce.severity
      message := ce.message
      severity := some ce.severity
      category := some ce.category
      timestamp := some ce.timestamp
      context := some ce.context
      bugTitle := none }
  let writes :=
    if escalationThreshold.rank ≤ ce.severity.rank then
      [primary,
       { level := "error"
         message := "Critical error notification: " ++ ce.message
         severity := some ce.severity
         category := some ce.category
         timestamp := some ce.timestamp
         context := some ce.context
         bugTitle := none }]
    else
      [primary]
  ({ agg := st.agg.record ce }, writes)

/-- Modelled from the spec: `getAggregatedErrors` of the absent
`src/services/errorHandler.js` — a snapshot of the owned Aggregator. -/
def getAggregatedErrors (st : HandlerState) : List AggregateEntry :=
  st.agg.snapshot

/-- Modelled from the spec: `resetErrorAggregation` of the absent
`src/services/errorHandler.js` — resets the owned Aggregator. -/
def resetErrorAggregation (st : HandlerState) : HandlerState :=
  { agg := st.agg.reset }

/-- Modelled from the spec: the transient outcome of one recovery attempt. -/
structure RecoveryOutcome where
  success : Bool
  message : String
deriving DecidableEq, Repr

/-- Modelled from the spec: the Recovery Dispatcher of the absent
`src/services/errorHandler.js` — an absent or false `recoverable` flag is the
fail-safe non-recoverable outcome; a true flag invokes the pluggable strategy,
whose boolean result is wrapped in a message containing the word `recovery`
and whose own failure is caught and converted into a failed outcome rather
than propagated. -/
def attemptRecoveryWith (strategy : ClassifiedError → Except String Bool)
    (ce : ClassifiedError) (recoverable : Option Bool) : RecoveryOutcome :=
  match recoverable with
  | some true =>
    match strategy ce with
    | Except.ok b =>
      { success := b, message := "Attempted recovery for: " ++ ce.message }
    | Except.error m =>
      { success := false, message := "Attempted recovery failed: " ++ m }
  | _ =>
    { success := false, message := ce.message ++ " is not recoverable" }

/-- Modelled from the spec: the default recovery strategy the tests exercise
through a default-constructed ErrorHandler — it succeeds. -/
def defaultRecoveryStrategy : ClassifiedError → Except String Bool :=
  fun _ => Except.ok true

/-- Modelled from the spec: `attemptRecovery` of the absent
`src/services/errorHandler.js` — classifies the raw error and dispatches on
its `recoverable` flag with the default strategy. -/
def attemptRecovery (raw : RawError) (now : String) : RecoveryOutcome :=
  attemptRecoveryWith defaultRecoveryStrategy (classifyError raw now)
    raw.recoverable

/-- Modelled from the spec: a bug report input to the absent
`src/services/bugReporter.js` — an optional title (absent or empty is
invalid), a description, and optional declared severity and category. -/
structure Bug where
  title : Option String
  description : String
  severity : Option ErrorSeverity
  category : Option ErrorCategory
deriving DecidableEq, Repr

/-- Modelled from the spec: `reportBug` of the absent
`src/services/bugReporter.js` — validates that the title is a non-empty
string, failing with the validation error before any sink write; otherwise
auto-assigns the category from the UI-keyword heuristic over title and
description when no explicit category is given, and emits exactly one
`error`-level record announcing the bug report. -/
def reportBug (bug : Bug) (now : String) : Except String (List SinkWrite) :=
  match bug.title with
  | none => Except.error "Invalid bug report data"
  | some t =>
    if t = "" then Except.error "Invalid bug report data"
    else
      let cat :=
        match bug.category with
        | some c => c
        | none =>
          if hasUiKeyword (t ++ " " ++ bug.description) then ErrorCategory.UI
          else ErrorCategory.UNKNOWN
      Except.ok
        [{ level := "error"
           message := "Bug reported: " ++ t
           severity := bug.severity
           category := some cat
           timestamp := some now
           context := none
           bugTitle := some t }]

theorem mergeContext_nil (extra : List (String × String)) :
    mergeContext [] extra = extra := by
  simp [mergeContext]

/-- C9: for every severity string whose lowercase form is not one of
`error`, `warn`, `info`, `debug`, `logError` throws an error whose message
names the invalid severity level and writes no log record; for severities in
that set, in any case, it never throws. -/
theorem logError_severity_validation {μ : Type} (error : ErrVal)
    (severity now : String) (meta : μ) :
    (toLowerCase severity ∉ logLevelNames →
      logError error severity now meta
        = Except.error ("Invalid severity level: " ++ severity) ∧
      strContains ("Invalid severity level: " ++ severity) severity) ∧
    (toLowerCase severity ∈ logLevelNames →
      ∃ r, logError error severity now meta = Except.ok r) := by
  constructor
  · intro h
    exact ⟨by simp [logError, h], strContains_append_right _ _⟩
  · intro h
    exact ⟨{ level := severity, message := error.errorMessage,
             severity := severity, etype := error.errorType,
             stack := error.errorStack, timestamp := now, meta := meta },
           by simp [logError, h]⟩

theorem logError_severity_validation_witness :
    (logError (ErrVal.str "boom") "FATAL" "ts" ()
        = Except.error ("Invalid severity level: " ++ "FATAL") ∧
      strContains ("Invalid severity level: " ++ "FATAL") "FATAL") ∧
    (∃ r, logError (ErrVal.str "boom") "ERROR" "ts" () = Except.ok r) :=
  ⟨(logError_severity_validation (ErrVal.str "boom") "FATAL" "ts" ()).1
      (by decide),
   (logError_severity_validation (ErrVal.str "boom") "ERROR" "ts" ()).2
      (by decide)⟩

/-- C10: the function returned by `withErrorLogging fn` returns exactly the
result of `fn` when `fn` does not throw (writing no log record), and when
`fn` throws it re-throws the very same error after one `error`-level log
write carrying the context and arguments — it never swallows the exception
or alters the result. -/
theorem withErrorLogging_transparent {α β : Type} (fn : α → Except ErrVal β)
    (context now : String) (args : α) :
    (withErrorLogging fn context now args).2 = fn args ∧
    (∀ v, fn args = Except.ok v →
      (withErrorLogging fn context now args).1 = []) ∧
    (∀ e, fn args = Except.error e →
      ∃ r, (withErrorLogging fn context now args).1 = [r] ∧
        r.level = "error" ∧ r.message = e.errorMessage ∧
        r.meta = (context, args)) := by
  cases hfn : fn args with
  | ok v =>
    refine ⟨by simp [withErrorLogging, hfn], fun w hw => ?_, fun e he => ?_⟩
    · simp [withErrorLogging, hfn]
    · exact absurd he (by simp)
  | error e =>
    have hv : toLowerCase "error" ∈ logLevelNames := by decide
    have key : withErrorLogging fn context now args =
        ([{ level := "error", message := e.errorMessage, severity := "error",
            etype := e.errorType, stack := e.errorStack, timestamp := now,
            meta := (context, args) }], Except.error e) := by
      simp [withErrorLogging, hfn, logError, hv]
    refine ⟨by rw [key], fun v hv2 => absurd hv2 (by simp), fun e2 he => ?_⟩
    have he2 : e2 = e := by
      injection he with h
      exact h.symm
    subst he2
    exact ⟨_, by rw [key], rfl, rfl, rfl⟩

theorem withErrorLogging_transparent_witness :
    ((withErrorLogging
        (fun _ : Unit => (Except.error (ErrVal.str "boom") : Except ErrVal Nat))
        "ctx" "ts" ()).2 = Except.error (ErrVal.str "boom") ∧
      ∃ r, (withErrorLogging
        (fun _ : Unit => (Except.error (ErrVal.str "boom") : Except ErrVal Nat))
        "ctx" "ts" ()).1 = [r] ∧ r.level = "error" ∧
          r.message = (ErrVal.str "boom").errorMessage ∧
          r.meta = ("ctx", ())) ∧
    ((withErrorLogging
        (fun _ : Unit => (Except.ok 7 : Except ErrVal Nat))
        "ctx" "ts" ()).2 = Except.ok 7 ∧
      (withErrorLogging
        (fun _ : Unit => (Except.ok 7 : Except ErrVal Nat))
        "ctx" "ts" ()).1 = []) :=
  ⟨⟨((withErrorLogging_transparent
        (fun _ : Unit => (Except.error (ErrVal.str "boom") : Except ErrVal Nat))
        "ctx" "ts" ()).1).trans rfl,
    (withErrorLogging_transparent
        (fun _ : Unit => (Except.error (ErrVal.str "boom") : Except ErrVal Nat))
        "ctx" "ts" ()).2.2 (ErrVal.str "boom") rfl⟩,
   ⟨((withErrorLogging_transparent
        (fun _ : Unit => (Except.ok 7 : Except ErrVal Nat))
        "ctx" "ts" ()).1).trans rfl,
    (withErrorLogging_transparent
        (fun _ : Unit => (Except.ok 7 : Except ErrVal Nat))
        "ctx" "ts" ()).2.1 7 rfl⟩⟩

/-- C1: handling the same message text twice and a different message text
once, starting from a fresh handler, yields exactly two aggregate entries in
first-seen (insertion) order: the repeated message first with count 2, the
other second with count 1. -/
theorem handleError_aggregation_counts (m1 m2 t1 t2 t3 : String)
    (h : m1 ≠ m2) :
    getAggregatedErrors
      (handleError
        (handleError
          (handleError HandlerState.init
            { message := m1, severity := none, category := none,
              recoverable := none, isException := true } [] t1).1
          { message := m1, severity := none, category := none,
            recoverable := none, isException := true } [] t2).1
        { message := m2, severity := none, category := none,
          recoverable := none, isException := true } [] t3).1
    = [{ signature := m1, sampleMessage := m1, count := 2,
         firstSeen := t1, lastSeen := t2 },
       { signature := m2, sampleMessage := m2, count := 1,
         firstSeen := t3, lastSeen := t3 }] := by
  simp [getAggregatedErrors, handleError, classifyError, Aggregator.record,
    Aggregator.snapshot, HandlerState.init, Aggregator.empty, recordIn, h]

theorem handleError_aggregation_counts_witness :
    ("Database connection failed" : String) ≠ "Different error" ∧
    getAggregatedErrors
      (handleError
        (handleError
          (handleError HandlerState.init
            { message := "Database connection failed", severity := none,
              category := none, recoverable := none, isException := true }
            [] "t1").1
          { message := "Database connection failed", severity := none,
            category := none, recoverable := none, isException := true }
          [] "t2").1
        { message := "Different error", severity := none, category := none,
          recoverable := none, isException := true } [] "t3").1
    = [{ signature := "Database connection failed",
         sampleMessage := "Database connection failed", count := 2,
         firstSeen := "t1", lastSeen := "t2" },
       { signature := "Different error", sampleMessage := "Different error",
         count := 1, firstSeen := "t3", lastSeen := "t3" }] :=
  ⟨by decide,
   handleError_aggregation_counts "Database connection failed"
     "Different error" "t1" "t2" "t3" (by decide)⟩

/-- C2: every input whose declared severity field is `critical`
(case-insensitively) and that carries no explicit category hint is classified
with severity `CRITICAL` and category `SYSTEM`. -/
theorem classifyError_critical_system (raw : RawError) (now : String)
    (hs : ∃ s, raw.severity = some s ∧ toLowerCase s = "critical")
    (hc : raw.category = none) :
    (classifyError raw now).severity = ErrorSeverity.CRITICAL ∧
    (classifyError raw now).category = ErrorCategory.SYSTEM := by
  obtain ⟨s, hs1, hs2⟩ := hs
  constructor
  · simp [classifyError, resolveSeverity, hs1, parseSeverity, hs2]
  · simp [classifyError, resolveCategory, resolveSeverity, hs1,
      parseSeverity, hs2, hc]

theorem classifyError_critical_system_witness :
    ((∃ s, (some "CriTical" : Option String) = some s ∧
        toLowerCase s = "critical") ∧
      (none : Option ErrorCategory) = none) ∧
    (classifyError
      { message := "Critical system failure", severity := some "CriTical",
        category := none, recoverable := none, isException := true }
      "ts").severity = ErrorSeverity.CRITICAL ∧
    (classifyError
      { message := "Critical system failure", severity := some "CriTical",
        category := none, recoverable := none, isException := true }
      "ts").category = ErrorCategory.SYSTEM :=
  ⟨⟨⟨"CriTical", rfl, by decide⟩, rfl⟩,
   classifyError_critical_system
     { message := "Critical system failure", severity := some "CriTical",
       category := none, recoverable := none, isException := true }
     "ts" ⟨"CriTical", rfl, by decide⟩ rfl⟩

/-- C8: resetting the aggregation leaves an empty snapshot regardless of
prior state, and the reset handler state is exactly the newly constructed
one, so subsequent `record` calls behave identically to a fresh handler. -/
theorem resetErrorAggregation_clears (st : HandlerState) :
    getAggregatedErrors (resetErrorAggregation st) = [] ∧
    resetErrorAggregation st = HandlerState.init ∧
    (∀ ce, (resetErrorAggregation st).agg.record ce
      = Aggregator.empty.record ce) := by
  exact ⟨rfl, rfl, fun ce => rfl⟩

theorem escalation_iff (s : ErrorSeverity) :
    escalationThreshold.rank ≤ s.rank ↔ s = ErrorSeverity.CRITICAL := by
  cases s <;> decide

theorem handleError_writes (st : HandlerState) (raw : RawError)
    (ctx : List (String × String)) (now : String) :
    (handleError st raw ctx now).2 =
      ({ level := severityToLevel (resolveSeverity raw),
         message := raw.message,
         severity := some (resolveSeverity raw),
         category := some (resolveCategory raw (resolveSeverity raw)),
         timestamp := some now,
         context := some ctx,
         bugTitle := none } : SinkWrite) ::
      (if resolveSeverity raw = ErrorSeverity.CRITICAL then
        [{ level := "error",
           message := "Critical error notification: " ++ raw.message,
           severity := some (resolveSeverity raw),
           category := some (resolveCategory raw (resolveSeverity raw)),
           timestamp := some now,
           context := some ctx,
           bugTitle := none }]
      else []) := by
  by_cases hc : resolveSeverity raw = ErrorSeverity.CRITICAL
  · simp [handleError, classifyError, mergeContext, escalation_iff, hc]
  · simp [handleError, classifyError, mergeContext, escalation_iff, hc]

/-- C3: an error classified at `CRITICAL` severity produces a second,
distinguishable `error`-level sink write whose message identifies a critical
notification; an error classified at `LOW` severity produces no second
write. -/
theorem handleError_critical_escalation (st : HandlerState) (raw : RawError)
    (ctx : List (String × String)) (now : String) :
    ((classifyError raw now).severity = ErrorSeverity.CRITICAL →
      ∃ w1 w2, (handleError st raw ctx now).2 = [w1, w2] ∧
        w2.level = "error" ∧
        strContains w2.message "Critical error notification") ∧
    ((classifyError raw now).severity = ErrorSeverity.LOW →
      ∃ w1, (handleError st raw ctx now).2 = [w1]) := by
  constructor
  · intro h
    have h' : resolveSeverity raw = ErrorSeverity.CRITICAL := h
    rw [handleError_writes, if_pos h']
    exact ⟨_, _, rfl, rfl, strContains_append_of_left _ (by decide)⟩
  · intro h
    have h' : resolveSeverity raw = ErrorSeverity.LOW := h
    rw [handleError_writes, if_neg (by simp [h'])]
    exact ⟨_, rfl⟩

theorem handleError_critical_escalation_witness :
    ((classifyError
        { message := "Critical system failure", severity := some "critical",
          category := none, recoverable := none, isException := true }
        "ts").severity = ErrorSeverity.CRITICAL ∧
      ∃ w1 w2, (handleError HandlerState.init
        { message := "Critical system failure", severity := some "critical",
          category := none, recoverable := none, isException := true }
        [] "ts").2 = [w1, w2] ∧ w2.level = "error" ∧
        strContains w2.message "Critical error notification") ∧
    ((classifyError
        { message := "Minor issue", severity := some "low",
          category := none, recoverable := none, isException := true }
        "ts").severity = ErrorSeverity.LOW ∧
      ∃ w1, (handleError HandlerState.init
        { message := "Minor issue", severity := some "low",
          category := none, recoverable := none, isException := true }
        [] "ts").2 = [w1]) :=
  ⟨⟨by decide,
    (handleError_critical_escalation HandlerState.init
      { message := "Critical system failure", severity := some "critical",
        category := none, recoverable := none, isException := true }
      [] "ts").1 (by decide)⟩,
   ⟨by decide,
    (handleError_critical_escalation HandlerState.init
      { message := "Minor issue", severity := some "low",
        category := none, recoverable := none, isException := true }
      [] "ts").2 (by decide)⟩⟩

/-- C4: `attemptRecovery` on an error with `recoverable = true` returns a
successful outcome whose message contains `recovery`; with `recoverable =
false` or the flag absent it returns a failed outcome whose message contains
`not recoverable`; and a throwing recovery strategy is caught and converted
into a failed outcome rather than propagated. -/
theorem attemptRecovery_outcomes (raw : RawError) (now : String) :
    (raw.recoverable = some true →
      (attemptRecovery raw now).success = true ∧
      strContains (attemptRecovery raw now).message "recovery") ∧
    ((raw.recoverable = some false ∨ raw.recoverable = none) →
      (attemptRecovery raw now).success = false ∧
      strContains (attemptRecovery raw now).message "not recoverable") ∧
    (∀ reason : ClassifiedError → String, ∀ ce : ClassifiedError,
      attemptRecoveryWith (fun c => Except.error (reason c)) ce (some true)
        = { success := false,
            message := "Attempted recovery failed: " ++ reason ce }) := by
  refine ⟨fun h => ?_, fun h => ?_, fun reason ce => rfl⟩
  · have key : attemptRecovery raw now =
        { success := true,
          message := "Attempted recovery for: " ++ raw.message } := by
      simp [attemptRecovery, attemptRecoveryWith, defaultRecoveryStrategy,
        classifyError, h]
    exact ⟨by rw [key], by
      rw [key]
      exact strContains_append_of_left _ (by decide)⟩
  · have key : attemptRecovery raw now =
        { success := false,
          message := raw.message ++ " is not recoverable" } := by
      rcases h with h | h <;>
        simp [attemptRecovery, attemptRecoveryWith, classifyError, h]
    exact ⟨by rw [key], by
      rw [key]
      exact strContains_append_of_right _ (by decide)⟩

theorem attemptRecovery_outcomes_witness :
    ((some true : Option Bool) = some true ∧
      (attemptRecovery
        { message := "Network timeout", severity := none, category := none,
          recoverable := some true, isException := true } "ts").success
        = true ∧
      strContains (attemptRecovery
        { message := "Network timeout", severity := none, category := none,
          recoverable := some true, isException := true } "ts").message
        "recovery") ∧
    ((attemptRecovery
        { message := "Critical system failure", severity := none,
          category := none, recoverable := some false, isException := true }
        "ts").success = false ∧
      strContains (attemptRecovery
        { message := "Critical system failure", severity := none,
          category := none, recoverable := some false, isException := true }
        "ts").message "not recoverable") :=
  ⟨⟨rfl,
    (attemptRecovery_outcomes
      { message := "Network timeout", severity := none, category := none,
        recoverable := some true, isException := true } "ts").1 rfl⟩,
   (attemptRecovery_outcomes
      { message := "Critical system failure", severity := none,
        category := none, recoverable := some false, isException := true }
      "ts").2.1 (Or.inl rfl)⟩

/-- C5: a bug whose title is absent or empty fails with the validation error
and produces no sink write; a valid bug with no explicit category whose title
or description carries UI wording produces exactly one `error`-level record
whose category is `UI`. -/
theorem reportBug_validation_and_ui (bug : Bug) (now : String) :
    ((bug.title = none ∨ bug.title = some "") →
      reportBug bug now = Except.error "Invalid bug report data") ∧
    (∀ t, bug.title = some t → t ≠ "" → bug.category = none →
      hasUiKeyword (t ++ " " ++ bug.description) = true →
      ∃ w, reportBug bug now = Except.ok [w] ∧
        w.level = "error" ∧ w.category = some ErrorCategory.UI ∧
        w.bugTitle = some t) := by
  constructor
  · rintro (h | h) <;> simp [reportBug, h]
  · intro t ht hne hcat hui
    have key : reportBug bug now = Except.ok
        [{ level := "error", message := "Bug reported: " ++ t,
           severity := bug.severity, category := some ErrorCategory.UI,
           timestamp := some now, context := none, bugTitle := some t }] := by
      simp [reportBug, ht, hne, hcat, hui]
    exact ⟨_, key, rfl, rfl, rfl⟩

theorem reportBug_validation_and_ui_witness :
    ((some "" : Option String) = some "" ∧
      reportBug
        { title := some "", description := "This is a test bug",
          severity := none, category := none } "ts"
        = Except.error "Invalid bug report data") ∧
    (∃ w, reportBug
        { title := some "UI rendering issue",
          description := "Button not displaying correctly",
          severity := none, category := none } "ts" = Except.ok [w] ∧
      w.level = "error" ∧ w.category = some ErrorCategory.UI ∧
      w.bugTitle = some "UI rendering issue") :=
  ⟨⟨rfl,
    (reportBug_validation_and_ui
      { title := some "", description := "This is a test bug",
        severity := none, category := none } "ts").1 (Or.inr rfl)⟩,
   (reportBug_validation_and_ui
      { title := some "UI rendering issue",
        description := "Button not displaying correctly",
        severity := none, category := none } "ts").2
     "UI rendering issue" rfl (by decide) rfl (by decide)⟩

/-- C6 counterexample: a raw error declaring severity `warning` is logged at
sink level `warn`, so this `handleError` call results in zero `error`-level
sink writes, not exactly one. -/
theorem handleError_error_level_counterexample :
    ((handleError HandlerState.init
        { message := "Potential issue detected", severity := some "warning",
          category := none, recoverable := none, isException := true }
        [] "ts").2.filter (fun w => w.level == "error")).length ≠ 1 := by
  decide

/-- C6 (amended): every `handleError` call emits one primary sink write, at
the level mapped from the classified severity, whose metadata contains the
severity and the timestamp and carries the caller-supplied context keys
nested under `context`; when the classified severity is `CRITICAL` exactly
one further write follows, the `error`-level critical-notification record,
and when it is not `CRITICAL` no further write is emitted. -/
theorem handleError_primary_write (st : HandlerState) (raw : RawError)
    (ctx : List (String × String)) (now : String) :
    (∃ w rest, (handleError st raw ctx now).2 = w :: rest ∧
      w.level = severityToLevel (classifyError raw now).severity ∧
      w.severity = some (classifyError raw now).severity ∧
      w.timestamp = some now ∧
      w.context = some ctx) ∧
    ((classifyError raw now).severity = ErrorSeverity.CRITICAL →
      ∃ w w2, (handleError st raw ctx now).2 = [w, w2] ∧
        w2.level = "error" ∧
        strContains w2.message "Critical error notification") ∧
    ((classifyError raw now).severity ≠ ErrorSeverity.CRITICAL →
      ∃ w, (handleError st raw ctx now).2 = [w]) := by
  refine ⟨?_, ?_, ?_⟩
  · rw [handleError_writes]
    exact ⟨_, _, rfl, rfl, rfl, rfl, rfl⟩
  · intro h
    have h' : resolveSeverity raw = ErrorSeverity.CRITICAL := h
    rw [handleError_writes, if_pos h']
    exact ⟨_, _, rfl, rfl, strContains_append_of_left _ (by decide)⟩
  · intro h
    have h' : resolveSeverity raw ≠ ErrorSeverity.CRITICAL := h
    rw [handleError_writes, if_neg h']
    exact ⟨_, rfl⟩

theorem handleError_primary_write_witness :
    ((classifyError
        { message := "Critical system failure", severity := some "critical",
          category := none, recoverable := none, isException := true }
        "ts").severity = ErrorSeverity.CRITICAL ∧
      ∃ w w2, (handleError HandlerState.init
        { message := "Critical system failure", severity := some "critical",
          category := none, recoverable := none, isException := true }
        [("userId", "123")] "ts").2 = [w, w2] ∧ w2.level = "error" ∧
        strContains w2.message "Critical error notification") ∧
    ((classifyError
        { message := "Potential issue detected", severity := some "warning",
          category := none, recoverable := none, isException := true }
        "ts").severity ≠ ErrorSeverity.CRITICAL ∧
      ∃ w, (handleError HandlerState.init
        { message := "Potential issue detected", severity := some "warning",
          category := none, recoverable := none, isException := true }
        [] "ts").2 = [w]) :=
  ⟨⟨by decide,
    (handleError_primary_write HandlerState.init
      { message := "Critical system failure", severity := some "critical",
        category := none, recoverable := none, isException := true }
      [("userId", "123")] "ts").2.1 (by decide)⟩,
   ⟨by decide,
    (handleError_primary_write HandlerState.init
      { message := "Potential issue detected", severity := some "warning",
        category := none, recoverable := none, isException := true }
      [] "ts").2.2 (by decide)⟩⟩

/-- C7 counterexample: an input lacking a declared severity field but whose
message carries UI wording is classified with severity `UNKNOWN` and category
`UI`, not category `UNKNOWN`. -/
theorem classifyError_unknown_counterexample :
    (classifyError
        { message := "Button not displaying correctly", severity := none,
          category := none, recoverable := none, isException := false }
        "ts").severity = ErrorSeverity.UNKNOWN ∧
    (classifyError
        { message := "Button not displaying correctly", severity := none,
          category := none, recoverable := none, isException := false }
        "ts").category = ErrorCategory.UI ∧
    ErrorCategory.UI ≠ ErrorCategory.UNKNOWN := by
  decide

/-- C7 (amended): every input lacking a declared severity field — exception
object or plain message-bearing object alike — is classified, without
throwing, with severity `UNKNOWN`; its category is `UNKNOWN` when
additionally no explicit category hint is present and the message carries no
UI-related wording. -/
theorem classifyError_no_severity_unknown (raw : RawError) (now : String)
    (h : raw.severity = none) :
    (classifyError raw now).severity = ErrorSeverity.UNKNOWN ∧
    (raw.category = none → hasUiKeyword raw.message = false →
      (classifyError raw now).category = ErrorCategory.UNKNOWN) := by
  constructor
  · simp [classifyError, resolveSeverity, h]
  · intro hc hui
    simp [classifyError, resolveCategory, resolveSeverity, h, hc, hui]

theorem classifyError_no_severity_unknown_witness :
    ((none : Option String) = none ∧
      (classifyError
        { message := "Unknown error type", severity := none,
          category := none, recoverable := none, isException := true }
        "ts").severity = ErrorSeverity.UNKNOWN ∧
      (classifyError
        { message := "Unknown error type", severity := none,
          category := none, recoverable := none, isException := true }
        "ts").category = ErrorCategory.UNKNOWN) ∧
    ((classifyError
        { message := "Non-error object", severity := none,
          category := none, recoverable := none, isException := false }
        "ts").severity = ErrorSeverity.UNKNOWN ∧
      (classifyError
        { message := "Non-error object", severity := none,
          category := none, recoverable := none, isException := false }
        "ts").category = ErrorCategory.UNKNOWN) :=
  ⟨⟨rfl,
    (classifyError_no_severity_unknown
      { message := "Unknown error type", severity := none,
        category := none, recoverable := none, isException := true }
      "ts" rfl).1,
    (classifyError_no_severity_unknown
      { message := "Unknown error type", severity := none,
        category := none, recoverable := none, isException := true }
      "ts" rfl).2 rfl (by decide)⟩,
   ⟨(classifyError_no_severity_unknown
      { message := "Non-error object", severity := none,
        category := none, recoverable := none, isException := false }
      "ts" rfl).1,
    (classifyError_no_severity_unknown
      { message := "Non-error object", severity := none,
        category := none, recoverable := none, isException := false }
      "ts" rfl).2 rfl (by decide)⟩⟩
